import Mathlib

/-
Verification of the survey data-collection core (apps/survey/models.py).

The development shallowly embeds the answer-normalization pipeline
(Response.save_related), the flat-export builder
(Response.generate_flat_dict / Respondant.generate_flat_dict), and the
Respondant save path.  Raw answer payloads are modelled as decoded JSON
values: a Response field answer_raw of none stands for a NULL or empty
raw string (falsy in Python), and some v stands for a raw string that
simplejson.loads decodes to v.  Python runtime failures (KeyError,
AttributeError, TypeError, NameError, decimal conversion errors) are
modelled with an explicit error type, and functions that can raise
return Except.
-/

set_option maxRecDepth 4000

namespace Survey

/-- A decoded JSON value as produced by simplejson.loads.  The
constructor encoded v models a JSON string whose text is itself the
JSON serialization of v (map-multipoint and pennies payloads are
double-encoded by the client and decoded twice by save_related);
str s models an ordinary string value. -/
inductive JValue where
  | null : JValue
  | bool : Bool → JValue
  | num : String → Rat → JValue
  | str : String → JValue
  | arr : List JValue → JValue
  | obj : List (String × JValue) → JValue
  | encoded : JValue → JValue

/- For num, the first component is the literal Python rendering of the
number (str of the decoded int or float, for example "1.0") and the
second its rational value; both come from the same raw token, so they
travel together. -/

mutual

/-- JSON serialization of a value (used as the Python string content of
an encoded constructor). -/
def JValue.encode : JValue → String
  | .null => "null"
  | .bool true => "true"
  | .bool false => "false"
  | .num lit _ => lit
  | .str s => "\"" ++ s ++ "\""
  | .arr xs => "[" ++ String.intercalate ", " (JValue.encodeList xs) ++ "]"
  | .obj fs => "\x7b" ++ String.intercalate ", " (JValue.encodeFields fs) ++ "\x7d"
  | .encoded v => "\"" ++ JValue.encode v ++ "\""

def JValue.encodeList : List JValue → List String
  | [] => []
  | v :: vs => JValue.encode v :: JValue.encodeList vs

def JValue.encodeFields : List (String × JValue) → List String
  | [] => []
  | (k, v) :: fs => ("\"" ++ k ++ "\": " ++ JValue.encode v) :: JValue.encodeFields fs

/-- Python repr of a decoded JSON value (Python 2, modulo the unicode
u-prefix and character escaping, which the model does not track). -/
def pyRepr : JValue → String
  | .null => "None"
  | .bool true => "True"
  | .bool false => "False"
  | .num lit _ => lit
  | .str s => "\x27" ++ s ++ "\x27"
  | .arr xs => "[" ++ String.intercalate ", " (pyReprList xs) ++ "]"
  | .obj fs => "\x7b" ++ String.intercalate ", " (pyReprFields fs) ++ "\x7d"
  | .encoded v => "\x27" ++ JValue.encode v ++ "\x27"

def pyReprList : List JValue → List String
  | [] => []
  | v :: vs => pyRepr v :: pyReprList vs

def pyReprFields : List (String × JValue) → List String
  | [] => []
  | (k, v) :: fs => ("\x27" ++ k ++ "\x27: " ++ pyRepr v) :: pyReprFields fs

end

/-- Python str of a decoded JSON value: strings render without quotes,
everything else as its repr (Python 2 str on containers uses repr of
the elements). -/
def pyStr : JValue → String
  | .str s => s
  | .encoded v => JValue.encode v
  | v => pyRepr v

/-- Python truthiness of a decoded JSON value.  A JSON serialization is
never the empty string, so encoded values are always truthy. -/
def JValue.truthy : JValue → Bool
  | .null => false
  | .bool b => b
  | .num _ q => q != 0
  | .str s => s ≠ ""
  | .arr xs => !xs.isEmpty
  | .obj fs => !fs.isEmpty
  | .encoded _ => true

/-- dict.get on a decoded object; none both when the receiver is not a
dict and when the key is absent (call sites distinguish the two).  The
model assumes object keys are unique, as Python dicts guarantee. -/
def JValue.objGet : JValue → String → Option JValue
  | .obj fs, k => fs.lookup k
  | _, _ => none

/-- Whether the receiver of an attribute access such as dict.get is
actually a dict (a non-dict receiver raises AttributeError). -/
def JValue.isObj : JValue → Bool
  | .obj _ => true
  | _ => false

/-- The isinstance (int, long, float, complex) test of the numeric
branch of save_related.  Python bool is a subtype of int, so decoded
JSON booleans pass this test. -/
def JValue.isNumericInstance : JValue → Bool
  | .num _ _ => true
  | .bool _ => true
  | _ => false

/-- True only for proper JSON numbers (what a reader of the spec means
by a payload that is a valid number). -/
def JValue.isNumber : JValue → Bool
  | .num _ _ => true
  | _ => false

/-- True only for JSON booleans. -/
def JValue.isBool : JValue → Bool
  | .bool _ => true
  | _ => false

/-- Numeric value of a payload accepted by the isinstance test; Python
coerces True to 1 and False to 0. -/
def JValue.numericValue : JValue → Rat
  | .num _ q => q
  | .bool true => 1
  | .bool false => 0
  | _ => 0

/-- Whitespace as stripped by Python str.strip (the model covers the
ASCII whitespace characters). -/
def isPySpace (c : Char) : Bool :=
  c = ' ' || c = '\t' || c = '\n' || c = '\r' || c = Char.ofNat 11 || c = Char.ofNat 12

/-- Python str.strip: whitespace removed from both ends. -/
def pyStrip (s : String) : String :=
  String.mk (((s.data.dropWhile isPySpace).reverse.dropWhile isPySpace).reverse)

/-- str.replace with a one-character pattern. -/
def replaceChar (a b : Char) (s : String) : String :=
  String.mk (s.data.map (fun c => if c = a then b else c))

/-- str.replace of a one-character pattern with the empty string. -/
def removeChar (a : Char) (s : String) : String :=
  String.mk (s.data.filter (fun c => c ≠ a))

/-- Split a character list at every occurrence of the separator. -/
def splitChars (sep : Char) : List Char → List (List Char)
  | [] => [[]]
  | c :: cs =>
      let r := splitChars sep cs
      if c = sep then [] :: r
      else match r with
           | [] => [[c]]
           | g :: gs => (c :: g) :: gs

/-- Parse a nonempty all-digit character list as a natural number. -/
def parseNatDigits (cs : List Char) : Option Nat :=
  if cs.isEmpty then none else go cs 0
where
  go : List Char → Nat → Option Nat
  | [], acc => some acc
  | c :: cs, acc => if c.isDigit then go cs (10 * acc + (c.toNat - 48)) else none

/-- Mantissa of a decimal literal: optional sign, digits with an
optional decimal point (Decimal accepts "1", "1.", ".5"), returned as
signed integer scaled by a power of ten. -/
def parseDecimalMantissa (cs : List Char) : Option (Int × Nat) :=
  let (sign, body) : Int × List Char :=
    match cs with
    | '-' :: rest => (-1, rest)
    | '+' :: rest => (1, rest)
    | _ => (1, cs)
  match splitChars '.' body with
  | [i] => (parseNatDigits i).map (fun n => (sign * (n : Int), 0))
  | [i, f] =>
      if i.isEmpty && f.isEmpty then none
      else do
        let iv ← if i.isEmpty then some 0 else parseNatDigits i
        let fv ← if f.isEmpty then some 0 else parseNatDigits f
        some (sign * ((iv * 10 ^ f.length + fv : Nat) : Int), f.length)
  | _ => none

/-- Exponent of a decimal literal: optional sign and digits. -/
def parseDecimalExp (cs : List Char) : Option Int :=
  match cs with
  | '-' :: rest => (parseNatDigits rest).map (fun n => -(n : Int))
  | '+' :: rest => (parseNatDigits rest).map Int.ofNat
  | _ => (parseNatDigits cs).map Int.ofNat

/-- decimal.Decimal applied to a string: sign, digits, optional point,
optional exponent, surrounding whitespace allowed; none models the
InvalidOperation exception.  Special values such as NaN or Infinity are
outside the model. -/
def parseDecimal (s : String) : Option Rat :=
  let t := (pyStrip s).data.map (fun c => if c = 'E' then 'e' else c)
  match splitChars 'e' t with
  | [m] => (parseDecimalMantissa m).map (fun (n, k) => mkRat n (10 ^ k))
  | [m, e] => do
      let (n, k) ← parseDecimalMantissa m
      let ev ← parseDecimalExp e
      if ev ≥ 0 then some (mkRat (n * 10 ^ ev.toNat) (10 ^ k))
      else some (mkRat n (10 ^ k * 10 ^ (-ev).toNat))
  | _ => none

/-- A calendar date as produced by datetime.strptime on a %m/%d/%Y
format (the time-of-day part is always midnight and is not tracked). -/
structure PyDate where
  year : Nat
  month : Nat
  day : Nat
deriving DecidableEq, Repr

/-- Number of days in a month, with Gregorian leap years, as validated
by the datetime constructor. -/
def daysInMonth (year month : Nat) : Nat :=
  if month = 2 then
    if year % 4 = 0 && (year % 100 ≠ 0 || year % 400 = 0) then 29 else 28
  else if month ∈ [4, 6, 9, 11] then 30
  else 31

/-- datetime.strptime with format %m/%d/%Y; none models the ValueError
raised on malformed or out-of-range input. -/
def strptimeMDY (s : String) : Option PyDate :=
  match splitChars '/' s.data with
  | [ms, ds, ys] => do
      let m ← parseNatDigits ms
      let d ← parseNatDigits ds
      let y ← parseNatDigits ys
      if 1 ≤ m && m ≤ 12 && 1 ≤ d && d ≤ daysInMonth y m && 1 ≤ y && y ≤ 9999 then
        some ⟨y, m, d⟩
      else none
  | _ => none

/-- Left-pad a numeral with zeros to the given width. -/
def padZeros (width n : Nat) : String :=
  let s := toString n
  String.mk (List.replicate (width - s.length) (Char.ofNat 48)) ++ s

/-- strftime with format %m/%d/%Y. -/
def strftimeMDY (d : PyDate) : String :=
  padZeros 2 d.month ++ "/" ++ padZeros 2 d.day ++ "/" ++ padZeros 4 d.year

/-- str of a Decimal stored in a max_digits=10, decimal_places=2 column:
two digits after the point when the value is representable in cents,
otherwise a fallback rendering (such values cannot come from the
column). -/
def decimal2Str (q : Rat) : String :=
  let sign := if q < 0 then "-" else ""
  let cents := q.num.natAbs * 100 / q.den
  if ((q.num.natAbs * 100) % q.den = 0) then
    sign ++ toString (cents / 100) ++ "." ++ padZeros 2 (cents % 100)
  else sign ++ toString q.num.natAbs ++ "/" ++ toString q.den

/-- str of the answer_number field as read by the flat-export builder;
Python renders None as the string None. -/
def numFieldStr : Option Rat → String
  | none => "None"
  | some q => decimal2Str q

/-- A MultiAnswer row: child of a multi-select Response, one row per
selected option.  answer_text holds the stripped name or text,
answer_label the str of the label value (NULL when the label is absent
or None). -/
structure MultiAnswer where
  answer_text : String
  answer_label : Option String
deriving DecidableEq, Repr

/-- A GridAnswer row: child of a grid Response, one row per answered
cell (and one per selected value for multi-select columns). -/
structure GridAnswer where
  row_text : Option String
  row_label : Option String
  col_text : Option String
  col_label : Option String
  answer_text : Option String
  answer_number : Option Rat
deriving DecidableEq, Repr

/-- A LocationAnswer row: sub-answer attached to one submitted map
point. -/
structure LocationAnswer where
  answer : Option String
  label : Option String
deriving DecidableEq, Repr

/-- A Location row: one submitted map point, owning its LocationAnswer
rows (the FK from LocationAnswer to Location is embedded as a list). -/
structure Location where
  lat : Rat
  lng : Rat
  answers : List LocationAnswer
deriving DecidableEq, Repr

/-- A grid column definition (the Option model rows referenced by
Question.grid_cols): display text, slug label, and sub-question type. -/
structure GridCol where
  text : String
  label : String
  type : String
deriving DecidableEq, Repr

/-- The slice of the Question model that normalization and the flat
export read: the slug, the type tag, and the grid column set. -/
structure Question where
  slug : String
  type : String
  grid_cols : List GridCol
deriving DecidableEq, Repr

/-- A Response row.  answer_raw of none models a NULL or empty raw
string; some v models a raw string that decodes to v.  The exclusively
owned child rows (MultiAnswer, GridAnswer, Location) are embedded as
lists, matching the delete-then-recreate ownership of save_related.
id is the integer primary key, set on the initial insert. -/
structure Response where
  id : Option Nat
  answer : Option String
  answer_number : Option Rat
  answer_raw : Option JValue
  answer_date : Option PyDate
  multiAnswers : List MultiAnswer
  gridAnswers : List GridAnswer
  locations : List Location

/-- The slice of the Respondant model that its save path and the flat
export read.  surveyor holds the full name of the surveyor when one is
assigned; ts is an abstract timestamp; csv_row the key of the cached
export row. -/
structure Respondant where
  uuid : String
  complete : Bool
  status : Option String
  review_status : String
  email : Option String
  surveyor : Option String
  ts : Option Nat
  locations : Option Nat
  csv_row : Option Nat
deriving DecidableEq, Repr

/-- A row of the Location table as seen from the Respondant side: the
nullable respondant FK (Location also has a Response FK, which the
Respondant save path does not read). -/
structure LocRow where
  respondant_id : Option String
deriving DecidableEq, Repr

/-- Count of Location rows whose respondant FK points at the given
uuid: the location_set.all().count() query of Respondant.save. -/
def geoPointCount (locs : List LocRow) (u : String) : Nat :=
  (locs.filter (fun l => l.respondant_id = some u)).length

/-- Python truthiness of the id field: None and 0 are falsy. -/
def idTruthy : Option Nat → Bool
  | none => false
  | some n => n ≠ 0

/-- Respondant.save.  The caller supplies the Location table, the
current time (used only when ts is unset) and a fresh CSVRow key (used
only when no export row exists yet).  The uuid is first rewritten to
replace colons, then locations is recomputed from the child geo-point
rows, then a csv_row is assigned if missing, and the row is written.
The update_csv_row call that follows the write only regenerates the
serialized export row and changes none of the fields modelled here. -/
def Respondant.save (locs : List LocRow) (now : Nat) (freshCsv : Nat) (r : Respondant) :
    Respondant :=
  let u := if r.uuid ≠ "" then replaceChar ':' '_' r.uuid else r.uuid
  let t := match r.ts with
    | none => some now
    | some t0 => some t0
  let c := match r.csv_row with
    | none => some freshCsv
    | some c0 => some c0
  { r with uuid := u, ts := t, locations := some (geoPointCount locs u), csv_row := c }

/-- get_review_status_display: maps the stored review_status code to its
display label; Django falls back to the raw value for unknown codes. -/
def reviewStatusDisplay (s : String) : String :=
  if s = "needs review" then "Needs Review"
  else if s = "flagged" then "Flagged"
  else if s = "accepted" then "Accepted"
  else s

/-- str of the ts field in the flat export; the exact datetime rendering
is abstracted to an injective stand-in, with None rendered as Python
renders it. -/
def tsFieldStr : Option Nat → String
  | none => "None"
  | some n => toString n

/-- The question slug with hyphens turned to underscores, as computed at
the end of save_related before the hasattr check. -/
def underscoreSlug (s : String) : String :=
  replaceChar '-' '_' s

/-- Names of the attributes present on a Respondant instance: concrete
model fields, FK id aliases, related-manager accessors, methods and the
manager.  hasattr(self.respondant, question_slug) is membership here. -/
def respondantAttrNames : List String :=
  ["uuid", "survey", "survey_id", "gfk_returnURL", "complete", "status",
   "review_status", "review_comment", "last_question", "vendor",
   "survey_site", "buy_or_catch", "how_sold", "locations", "ts",
   "updated_at", "email", "surveyor", "surveyor_id", "csv_row",
   "csv_row_id", "test_data", "objects", "pk", "save", "update_csv_row",
   "get_field_names", "generate_flat_dict", "stats_report_filter",
   "response_set", "location_set", "respondant_set"]

/-- hasattr of the rewritten question slug on a Respondant instance. -/
def respondantHasAttr (s : String) : Bool :=
  respondantAttrNames.contains s

/-- Storage coercion of the in-memory self.answer value into the
answer TextField at save time: Python None becomes NULL, every other
value is stored as its str. -/
def storeText : JValue → Option String
  | .null => none
  | v => some (pyStr v)

/-- Failures that can escape the flat-export builder, each one a Python
exception of the source: NotImplementedError for an unrecognized
question type (carrying the offending type and the response id),
TypeError from dict.update on the None returned for an empty raw
payload, AttributeError from strftime on a NULL answer_date, and
TypeError from concatenating a NULL grid row_label. -/
inductive FlatErr where
  | unsupportedType (qtype : String) (rid : Option Nat)
  | noneUpdate
  | noneDate
  | noneRowLabel
deriving DecidableEq, Repr

/-- The question types whose flat entry is the stored display answer. -/
def flatScalarTypes : List String :=
  ["info", "text", "textarea", "yes-no", "single-select",
   "auto-single-select", "map-multipoint", "pennies", "timepicker",
   "multi-select"]

/-- The numeric question types. -/
def numericTypes : List String :=
  ["currency", "integer", "number"]

/-- Flat entries contributed by the GridAnswer rows of a grid response:
one entry per row, keyed by slug-rowlabel, valued by the cell text. -/
def gridFlatEntries (slug : String) : List GridAnswer → Except FlatErr (List (String × JValue))
  | [] => .ok []
  | g :: gs =>
      match g.row_label with
      | none => .error .noneRowLabel
      | some rl => do
          let rest ← gridFlatEntries slug gs
          .ok ((slug ++ "-" ++ rl,
                match g.answer_text with
                | none => JValue.null
                | some t => JValue.str t) :: rest)

/-- Response.generate_flat_dict: the per-response contribution to the
flat export.  Returns ok none when answer_raw is falsy (the source
method body is skipped and the method returns None). -/
def Response.generate_flat_dict (q : Question) (r : Response) :
    Except FlatErr (Option (List (String × JValue))) :=
  match r.answer_raw with
  | none => .ok none
  | some _ =>
      if q.type ∈ flatScalarTypes then
        .ok (some [(q.slug, match r.answer with
                            | none => JValue.null
                            | some s => JValue.str s)])
      else if q.type ∈ numericTypes then
        .ok (some [(q.slug, JValue.str (numFieldStr r.answer_number))])
      else if q.type = "datepicker" then
        match r.answer_date with
        | none => .error .noneDate
        | some d => .ok (some [(q.slug, JValue.str (strftimeMDY d))])
      else if q.type = "grid" then
        (gridFlatEntries q.slug r.gridAnswers).map some
      else .error (.unsupportedType q.type r.id)

/-- Set one key of a Python dict: replace in place when present, append
otherwise. -/
def dictSet (d : List (String × JValue)) (k : String) (v : JValue) :
    List (String × JValue) :=
  if d.any (fun p => p.fst = k) then
    d.map (fun p => if p.fst = k then (k, v) else p)
  else d ++ [(k, v)]

/-- dict.update: fold the entries of the update into the dict. -/
def dictUpdate (d u : List (String × JValue)) : List (String × JValue) :=
  u.foldl (fun acc p => dictSet acc p.fst p.snd) d

/-- The fixed metadata entries of the respondant flat export. -/
def flatBase (rp : Respondant) : List (String × JValue) :=
  [("model-surveyor", JValue.str (rp.surveyor.getD "")),
   ("model-timestamp", JValue.str (tsFieldStr rp.ts)),
   ("model-email", match rp.email with
                   | none => JValue.null
                   | some e => JValue.str e),
   ("model-complete", JValue.bool rp.complete),
   ("model-review-status", JValue.str (reviewStatusDisplay rp.review_status))]

/-- The flat.update loop over the responses of a respondant.  A
per-response dict of None (empty raw payload) makes dict.update raise
TypeError, aborting the whole build. -/
def flatFold (acc : List (String × JValue)) :
    List (Question × Response) → Except FlatErr (List (String × JValue))
  | [] => .ok acc
  | (q, r) :: rest =>
      match Response.generate_flat_dict q r with
      | .error e => .error e
      | .ok none => .error .noneUpdate
      | .ok (some u) => flatFold (dictUpdate acc u) rest

/-- Respondant.generate_flat_dict: fixed metadata fields merged with the
per-response entries, in response-set order. -/
def Respondant.generate_flat_dict (rp : Respondant)
    (rs : List (Question × Response)) : Except FlatErr (List (String × JValue)) :=
  flatFold (flatBase rp) rs

/-- Python runtime failures that can escape save_related: a second
simplejson.loads on a string that is not valid JSON, TypeError,
AttributeError (.get or .strip on the wrong type), KeyError on a
subscript, IndexError, NameError from a local read before assignment,
ValueError or decimal InvalidOperation, and any flat-export failure
propagated out of the CSV-row regeneration. -/
inductive NormErr where
  | jsonDecode
  | typeError
  | attrError
  | keyError (k : String)
  | indexError
  | nameError
  | valueError
  | flat (e : FlatErr)
deriving DecidableEq, Repr

/-- Subscript access value[k]: KeyError when the key is missing from a
dict, TypeError when the value is not a dict. -/
def jSubscript (v : JValue) (k : String) : Except NormErr JValue :=
  match v with
  | .obj fs =>
      match fs.lookup k with
      | some w => .ok w
      | none => .error (.keyError k)
  | _ => .error .typeError

/-- A Python for-loop over a decoded value: lists yield their elements,
strings their characters, dicts their keys; everything else raises
TypeError. -/
def pyIter : JValue → Except NormErr (List JValue)
  | .arr xs => .ok xs
  | .str s => .ok (s.toList.map (fun c => JValue.str (String.mk [c])))
  | .obj fs => .ok (fs.map (fun p => JValue.str p.fst))
  | .encoded w => .ok ((JValue.encode w).toList.map (fun c => JValue.str (String.mk [c])))
  | _ => .error .typeError

/-- Subscript access value[0] for the sub-answer list of a map point. -/
def indexZero : JValue → Except NormErr JValue
  | .arr (x :: _) => .ok x
  | .arr [] => .error .indexError
  | .str s => if s.data.isEmpty then .error .indexError
              else .ok (.str (String.mk (s.data.take 1)))
  | .encoded w => .ok (.str (String.mk ((JValue.encode w).data.take 1)))
  | _ => .error .typeError

/-- The second simplejson.loads of the map-multipoint and pennies
branches.  A string known to be a serialized document decodes to it; a
plain string is not valid JSON in the model; a non-string receiver
raises TypeError. -/
def loadsAgain : JValue → Except NormErr JValue
  | .encoded w => .ok w
  | .str _ => .error .jsonDecode
  | _ => .error .typeError

/-- One multi-select element examined on its own: ok (some t) when the
stripped name (preferred) or text is selected, ok none when neither key
holds a truthy value, error on a non-dict element or a truthy
non-string name or text (.get or .strip raises AttributeError). -/
def selCore (e : JValue) : Except NormErr (Option String) :=
  if e.isObj then
    let nameV := (e.objGet "name").getD .null
    if nameV.truthy then
      match nameV with
      | .str s => .ok (some (pyStrip s))
      | _ => .error .attrError
    else
      let textV := (e.objGet "text").getD .null
      if textV.truthy then
        match textV with
        | .str s => .ok (some (pyStrip s))
        | _ => .error .attrError
      else .ok none
  else .error .attrError

/-- One iteration of the multi-select loop: when neither name nor text
is truthy the local answer_text is never assigned, so the value leaked
from the previous iteration is reused, and on the first iteration the
read raises NameError. -/
def selStep (prev : Option String) (e : JValue) : Except NormErr String :=
  match selCore e with
  | .error err => .error err
  | .ok (some t) => .ok t
  | .ok none =>
      match prev with
      | some t => .ok t
      | none => .error .nameError

/-- The MultiAnswer row created for one multi-select element. -/
def mkMultiAnswer (t : String) (e : JValue) : MultiAnswer :=
  { answer_text := t,
    answer_label := match e.objGet "label" with
      | none => none
      | some .null => none
      | some lv => some (pyStr lv) }

/-- The multi-select loop: accumulates the created MultiAnswer rows and
the display texts joined into the answer afterwards. -/
def multiFold (prev : Option String) (rows : List MultiAnswer)
    (texts : List String) : List JValue → Except NormErr (List MultiAnswer × List String)
  | [] => .ok (rows, texts)
  | e :: es =>
      match selStep prev e with
      | .error err => .error err
      | .ok t => multiFold (some t) (rows ++ [mkMultiAnswer t e]) (texts ++ [t]) es

/-- The name-or-text value of one well-formed select element. -/
def selValue (e : JValue) : Option String :=
  match selCore e with
  | .ok (some t) => some t
  | _ => none

/-- The MultiAnswer row a well-formed element produces. -/
def selRow (e : JValue) : Option MultiAnswer :=
  (selValue e).map (fun t => mkMultiAnswer t e)

/-- The LocationAnswer rows of one map point: one row per element of
answers[0], reading the text and label keys by subscript (a missing key
raises and is not caught). -/
def locAnswerRows : List JValue → Except NormErr (List LocationAnswer)
  | [] => .ok []
  | a :: rest => do
      let tv ← jSubscript a "text"
      let lv ← jSubscript a "label"
      let more ← locAnswerRows rest
      .ok (⟨storeText tv, storeText lv⟩ :: more)

/-- One point of a map-multipoint or pennies payload: the summary string
lat,lng: answers, and the Location row with lat and lng obtained by
Decimal(str(value)) and the attached LocationAnswer rows. -/
def mapPoint (p : JValue) : Except NormErr (String × Location) := do
  let latV ← jSubscript p "lat"
  let lngV ← jSubscript p "lng"
  let ansV ← jSubscript p "answers"
  let summary := pyStr latV ++ "," ++ pyStr lngV ++ ": " ++ pyStr ansV
  let latD ← match parseDecimal (pyStr latV) with
    | some q => Except.ok q
    | none => Except.error NormErr.valueError
  let lngD ← match parseDecimal (pyStr lngV) with
    | some q => Except.ok q
    | none => Except.error NormErr.valueError
  let sub0 ← indexZero ansV
  let items ← pyIter sub0
  let rows ← locAnswerRows items
  .ok (summary, ⟨latD, lngD, rows⟩)

/-- The point loop of the map-multipoint and pennies branches. -/
def mapPoints : List JValue → Except NormErr (List String × List Location)
  | [] => .ok ([], [])
  | p :: ps => do
      let (s, loc) ← mapPoint p
      let (ss, locs) ← mapPoints ps
      .ok (s :: ss, loc :: locs)

/-- The grid column types handled by the scalar-cell branch. -/
def gridScalarColTypes : List String :=
  ["currency", "integer", "number", "single-select", "text", "yes-no"]

/-- The column label with hyphens stripped, the key used to read the
cell out of a row-answer object. -/
def gridKey (col : GridCol) : String :=
  removeChar '-' col.label

/-- The value a cell contributes to the answer_number DecimalField when
the row save succeeds: None stays NULL, numbers and booleans coerce,
numeric strings parse; none models a save-time conversion failure. -/
def decimalPrep : JValue → Option (Option Rat)
  | .null => some none
  | .num _ q => some (some q)
  | .bool b => some (some (if b then 1 else 0))
  | .str s => (parseDecimal s).map some
  | _ => none

/-- The GridAnswer row of a scalar cell; none when any lookup or the
save raises (the exception is caught per cell and the row skipped). -/
def numericCellRow (a : JValue) (col : GridCol) : Option GridAnswer := do
  let cell ← (jSubscript a (gridKey col)).toOption
  let rl ← (jSubscript a "label").toOption
  let rt ← (jSubscript a "text").toOption
  let n ← decimalPrep cell
  some { row_text := storeText rt, row_label := storeText rl,
         col_text := some col.text, col_label := some col.label,
         answer_text := storeText cell, answer_number := n }

/-- The iterable forms a multi-select cell value can take: a list of
selected values, the characters of a string, or the keys of a dict. -/
def iterCellTexts : JValue → Option (List (Option String))
  | .arr xs => some (xs.map storeText)
  | .str s => some (s.toList.map (fun c => some (String.mk [c])))
  | .obj fs => some (fs.map (fun p => some p.fst))
  | .encoded w => some ((JValue.encode w).toList.map (fun c => some (String.mk [c])))
  | _ => none

/-- The GridAnswer rows of a multi-select cell, one per selected value;
none when any lookup or the iteration raises. -/
def multiCellRows (a : JValue) (col : GridCol) : Option (List GridAnswer) := do
  let cell ← (jSubscript a (gridKey col)).toOption
  let rl ← (jSubscript a "label").toOption
  let rt ← (jSubscript a "text").toOption
  let items ← iterCellTexts cell
  some (items.map (fun t =>
    { row_text := storeText rt, row_label := storeText rl,
      col_text := some col.text, col_label := some col.label,
      answer_text := t, answer_number := none }))

/-- One (row, column) cell of the grid branch.  The boolean threads
whether the local e of the scalar-cell except handler has been bound: a
failing scalar cell binds it and is skipped; a failing multi-select
cell is only skipped when e is already bound, because its bare except
handler prints e and otherwise raises NameError. -/
def gridColStep (a : JValue) (col : GridCol) (eB : Bool) :
    Except NormErr (List GridAnswer × Bool) :=
  if col.type ∈ gridScalarColTypes then
    match numericCellRow a col with
    | some g => .ok ([g], eB)
    | none => .ok ([], true)
  else if col.type = "multi-select" then
    match multiCellRows a col with
    | some gs => .ok (gs, eB)
    | none => if eB then .ok ([], eB) else .error .nameError
  else .ok ([], eB)

/-- The inner column loop of the grid branch. -/
def gridColsFold (a : JValue) (eB : Bool) :
    List GridCol → Except NormErr (List GridAnswer × Bool)
  | [] => .ok ([], eB)
  | col :: rest => do
      let (rows1, eB1) ← gridColStep a col eB
      let (rows2, eB2) ← gridColsFold a eB1 rest
      .ok (rows1 ++ rows2, eB2)

/-- The outer row loop of the grid branch. -/
def gridRowsFold (cols : List GridCol) (eB : Bool) :
    List JValue → Except NormErr (List GridAnswer × Bool)
  | [] => .ok ([], eB)
  | a :: rest => do
      let (rows1, eB1) ← gridColsFold a eB cols
      let (rows2, eB2) ← gridRowsFold cols eB1 rest
      .ok (rows1 ++ rows2, eB2)

/-- The in-memory outcome of the type dispatch of save_related: the
in-memory self.answer value, the pending answer_number and answer_date
assignments (written to the row by the final self.save()), and the
response row as it stands in the database after the child-row writes
(child rows are saved inside the branches; the scalar fields are not
yet). -/
structure BranchOut where
  ans : JValue
  answer_number : Option Rat
  answer_date : Option PyDate
  rdb : Response

/-- The type dispatch of save_related, one branch per recognized type
tag, in source order; a type matching no branch falls through with the
decoded payload left as the in-memory answer.  The map-multipoint and
pennies branches additionally require a truthy id. -/
def normalizeBranch (q : Question) (r : Response) (v : JValue) :
    Except NormErr BranchOut :=
  let init : BranchOut := ⟨v, r.answer_number, r.answer_date, r⟩
  if q.type ∈ ["datepicker"] then
    match v with
    | .str s =>
        match strptimeMDY s with
        | some d => .ok { init with answer_date := some d }
        | none => .error .valueError
    | _ => .error .typeError
  else if q.type ∈ numericTypes then
    if v.isNumericInstance then
      .ok { init with answer_number := some v.numericValue }
    else
      .ok { init with ans := .null }
  else if q.type ∈ ["auto-single-select", "single-select", "yes-no"] then
    if v.isObj then
      let nameV := (v.objGet "name").getD .null
      if nameV.truthy then
        match nameV with
        | .str s => .ok { init with ans := .str (pyStrip s) }
        | _ => .error .attrError
      else
        let textV := (v.objGet "text").getD .null
        if textV.truthy then
          match textV with
          | .str s => .ok { init with ans := .str (pyStrip s) }
          | _ => .error .attrError
        else .ok init
    else .error .attrError
  else if q.type ∈ ["auto-multi-select", "multi-select"] then do
    let es ← pyIter v
    let (rows, texts) ← multiFold none [] [] es
    .ok { init with ans := .str (String.intercalate ", " texts),
                    rdb := { r with multiAnswers := rows } }
  else if q.type ∈ ["map-multipoint"] && idTruthy r.id then do
    let w ← loadsAgain v
    let ps ← pyIter w
    let (summaries, locs) ← mapPoints ps
    .ok { init with ans := .str (String.intercalate ", " summaries),
                    rdb := { r with locations := locs } }
  else if q.type ∈ ["pennies"] && idTruthy r.id then do
    let w ← loadsAgain v
    let ps ← pyIter w
    let (summaries, locs) ← mapPoints ps
    .ok { init with ans := .str (String.intercalate ", " summaries),
                    rdb := { r with locations := locs } }
  else if q.type = "grid" then do
    let rowsJ ← pyIter v
    let (grows, _) ← gridRowsFold q.grid_cols false rowsJ
    .ok { init with rdb := { r with gridAnswers := grows } }
  else .ok init

/-- The final self.save() of save_related: the pending in-memory field
assignments are written to the response row (TextFields store str of
the value, None stores NULL). -/
def finalSave (out : BranchOut) : Response :=
  { out.rdb with answer := storeText out.ans,
                 answer_number := out.answer_number,
                 answer_date := out.answer_date }

/-- Response.save_related.  Skipped entirely on a falsy raw payload;
otherwise the raw payload is decoded, the type dispatch runs, and when
the rewritten question slug names an attribute of the owning Respondant
the respondant row is updated and its CSV export row regenerated, which
reruns Respondant.generate_flat_dict over the respondant responses,
reading this response as it stands in the database before the final
self.save() writes the scalar fields.  The respondant field update
cannot affect whether that regeneration raises, so the model only
propagates its failure. -/
def Response.save_related (q : Question) (rp : Option Respondant)
    (others : List (Question × Response)) (r : Response) :
    Except NormErr Response :=
  match r.answer_raw with
  | none => .ok r
  | some v => do
      let out ← normalizeBranch q r v
      match rp with
      | some rpv =>
          if respondantHasAttr (underscoreSlug q.slug) then
            match Respondant.generate_flat_dict rpv (others ++ [(q, out.rdb)]) with
            | .error e => .error (.flat e)
            | .ok _ => .ok (finalSave out)
          else .ok (finalSave out)
      | none => .ok (finalSave out)

/-- The post_save signal handler connected to Response: it calls
save_related exactly when the save that fired it was the initial
insert. -/
def postSaveHandler (created : Bool) (q : Question) (rp : Option Respondant)
    (others : List (Question × Response)) (r : Response) :
    Except NormErr Response :=
  if created then Response.save_related q rp others r else .ok r

/-- Number of save_related invocations the handler performs for one
post_save signal with the given created flag. -/
def handlerRunCount (created : Bool) : Nat :=
  if created then 1 else 0

/-- The created flags of the save history of one Response row: the
framework fires created = true exactly for the initial insert, and
created = false for every later save, whatever fields (including
answer_raw) the update touched. -/
def lifecycleCreatedFlags (laterSaves : Nat) : List Bool :=
  true :: List.replicate laterSaves false

/-- Total number of save_related invocations over a save history. -/
def totalNormalizationRuns (flags : List Bool) : Nat :=
  (flags.map handlerRunCount).sum

/-- A newly created response row: the given pk and raw payload, every
derived field still at its column default. -/
def freshResponse (i : Nat) (raw : Option JValue) : Response :=
  { id := some i, answer := none, answer_number := none, answer_raw := raw,
    answer_date := none, multiAnswers := [], gridAnswers := [], locations := [] }

/-- A map-multipoint question. -/
def mapQ : Question := ⟨"fishing-spots", "map-multipoint", []⟩

/-- The double-encoded example payload of the spec:
[ \x7b lat: 1.0, lng: 2.0, answers: [[ \x7b text: x, label: x \x7d ]] \x7d ]. -/
def mapPayload : JValue :=
  .encoded (.arr [ .obj [("lat", .num "1.0" 1), ("lng", .num "2.0" 2),
    ("answers", .arr [ .arr [ .obj [("text", .str "x"), ("label", .str "x")] ] ])] ])

/-- A newly created map-multipoint response carrying the example
payload. -/
def mapR : Response := freshResponse 7 (some mapPayload)

/-- A question whose type tag no normalization branch recognizes (the
location tag is declared in QUESTION_TYPE_CHOICES but handled nowhere). -/
def locQ : Question := ⟨"treasure-spot", "location", []⟩

/-- A newly created response on the unrecognized-type question. -/
def locR : Response := freshResponse 3 (some (.str "somewhere"))

/-- An integer question. -/
def boolQ : Question := ⟨"catch-count", "integer", []⟩

/-- A newly created integer response whose raw payload decodes to the
boolean true, which is not a number. -/
def boolR : Response := freshResponse 4 (some (.bool true))

/-- A currency question. -/
def currQ : Question := ⟨"total-cost", "currency", []⟩

/-- A newly created currency response whose raw payload decodes to a
non-numeric string. -/
def currR : Response := freshResponse 11 (some (.str "a lot"))

/-- A multi-select question. -/
def msQ : Question := ⟨"species-caught", "multi-select", []⟩

/-- A two-element multi-select payload: one element named with
surrounding whitespace and a label, one carrying only a text. -/
def msPayloadElems : List JValue :=
  [ .obj [("name", .str " Tuna "), ("label", .str "tuna")],
    .obj [("text", .str "Crab")] ]

/-- A newly created multi-select response carrying the two-element
payload. -/
def msR : Response := freshResponse 5 (some (.arr msPayloadElems))

/-- The numeric column of the example grid question. -/
def weightCol : GridCol := ⟨"Weight", "weight", "number"⟩

/-- The multi-select column of the example grid question. -/
def methodsCol : GridCol := ⟨"Methods", "methods", "multi-select"⟩

/-- A grid question with one numeric and one multi-select column. -/
def gridQ : Question := ⟨"species-grid", "grid", [weightCol, methodsCol]⟩

/-- One grid row answer: the numeric cell holds 12.5 and the
multi-select cell two selected values. -/
def gridRowPayload : JValue :=
  .obj [("label", .str "tuna"), ("text", .str "Tuna"),
        ("weight", .num "12.5" (mkRat 25 2)),
        ("methods", .arr [.str "net", .str "line"])]

/-- A newly created grid response with the single example row. -/
def gridR : Response := freshResponse 6 (some (.arr [gridRowPayload]))

/-- A text question. -/
def emptyRawQ : Question := ⟨"notes", "text", []⟩

/-- A response whose answer_raw is NULL or empty. -/
def emptyRawR : Response := freshResponse 8 none

/-- A respondant used as the owner in flat-export runs. -/
def flatRp : Respondant :=
  { uuid := "u-1", complete := false, status := none,
    review_status := "needs review", email := none, surveyor := none,
    ts := some 10, locations := none, csv_row := some 1 }

/-- A question whose type tag the flat-export builder does not
recognize (datetimepicker is declared in QUESTION_TYPE_CHOICES but has
no flat-export branch). -/
def dtQ : Question := ⟨"when-exactly", "datetimepicker", []⟩

/-- A response on the datetimepicker question with a truthy raw
payload. -/
def dtR : Response :=
  { freshResponse 9 (some (.str "2014")) with answer := some "2014" }

/-- The GridAnswer row the numeric column produces on the example grid
row. -/
def wRow : GridAnswer :=
  ⟨some "Tuna", some "tuna", some "Weight", some "weight",
   some "12.5", some (mkRat 25 2)⟩

/-- The GridAnswer rows the multi-select column produces on the example
grid row, one per selected value. -/
def mRows : List GridAnswer :=
  [⟨some "Tuna", some "tuna", some "Methods", some "methods", some "net", none⟩,
   ⟨some "Tuna", some "tuna", some "Methods", some "methods", some "line", none⟩]

/-- C4: the flat-export builder reads only the stored state of the
respondant and its responses (no clock reads, no mutation of its
inputs), so running it twice on an unchanged Respondant yields two
identical field-to-value mappings. -/
theorem C4_flatten_idempotent (rp : Respondant) (rs : List (Question × Response)) :
    Respondant.generate_flat_dict rp rs = Respondant.generate_flat_dict rp rs := rfl

/-- C6: on the spec example payload for map-multipoint, normalization
creates exactly one Location with lat 1 and lng 2 carrying exactly one
LocationAnswer with answer x, and sets the answer to the lat,lng:
answers summary of the single point (joined with comma-space when
several points exist). -/
theorem C6_map_multipoint_example :
    Response.save_related mapQ none [] mapR =
      .ok { mapR with
              answer := some "1.0,2.0: [[\x7b\x27text\x27: \x27x\x27, \x27label\x27: \x27x\x27\x7d]]",
              locations := [⟨1, 2, [⟨some "x", some "x"⟩]⟩] } := rfl

/-- C7: after every Respondant save, the locations field equals the
count of the Location rows whose respondant FK points at the saved
record. -/
theorem C7_locations_recomputed_on_save (locs : List LocRow) (now freshCsv : Nat)
    (rp : Respondant) :
    (Respondant.save locs now freshCsv rp).locations
      = some (geoPointCount locs (Respondant.save locs now freshCsv rp).uuid) := rfl

/-- C8: setting status to terminate and saving leaves review_status
unchanged. -/
theorem C8_terminate_preserves_review_status (locs : List LocRow) (now freshCsv : Nat)
    (rp : Respondant) :
    (Respondant.save locs now freshCsv { rp with status := some "terminate" }).review_status
      = rp.review_status := rfl

/-- C9: over the save history of one Response row (one insert followed
by any number of update saves, whatever fields they touch, answer_raw
included), the post_save handler invokes save_related exactly once; an
update save leaves the response untouched by the handler, and the
creation save runs exactly the normalization. -/
theorem C9_normalization_exactly_once (laterSaves : Nat) (q : Question)
    (rp : Option Respondant) (others : List (Question × Response)) (r : Response) :
    totalNormalizationRuns (lifecycleCreatedFlags laterSaves) = 1
      ∧ postSaveHandler false q rp others r = .ok r
      ∧ postSaveHandler true q rp others r = Response.save_related q rp others r := by
  refine ⟨?_, rfl, rfl⟩
  simp [totalNormalizationRuns, lifecycleCreatedFlags, handlerRunCount,
        List.map_replicate, List.sum_replicate]

/-- C3 counterexample: normalization of a Response whose question type
is recognized by no branch does not fail at all: save_related returns
successfully with the decoded payload passed through as the answer. -/
theorem C3_unknown_type_normalization_succeeds :
    Response.save_related locQ none [] locR = .ok { locR with answer := some "somewhere" } := rfl

/-- C3 amended: the UnsupportedType failure naming the offending type
and the response id is raised by the flat-export builder
(Response.generate_flat_dict), not by normalization, whenever the
question type matches none of its recognized tags and the raw payload
is truthy. -/
theorem C3_flat_export_raises_unsupported_type (q : Question) (r : Response) (v : JValue)
    (hraw : r.answer_raw = some v)
    (h1 : q.type ∉ flatScalarTypes) (h2 : q.type ∉ numericTypes)
    (h3 : q.type ≠ "datepicker") (h4 : q.type ≠ "grid") :
    Response.generate_flat_dict q r = .error (.unsupportedType q.type r.id) := by
  unfold Response.generate_flat_dict
  rw [hraw]
  simp [h1, h2, h3, h4]

/-- C3 witness: the datetimepicker tag is outside every recognized
flat-export list, and the flat-export builder fails on it with the
error carrying the type tag and the response id. -/
theorem C3_witness :
    dtQ.type ∉ flatScalarTypes ∧ dtQ.type ∉ numericTypes
      ∧ dtQ.type ≠ "datepicker" ∧ dtQ.type ≠ "grid"
      ∧ Response.generate_flat_dict dtQ dtR
          = .error (.unsupportedType "datetimepicker" (some 9)) :=
  ⟨by decide, by decide, by decide, by decide,
   C3_flat_export_raises_unsupported_type dtQ dtR (.str "2014") rfl
     (by decide) (by decide) (by decide) (by decide)⟩

/-- C2 counterexample: a decoded true is not a valid number, yet the
numeric branch accepts it (Python bool is an int subtype), so
normalization stores answer_number 1 and answer True instead of
leaving both null. -/
theorem C2_boolean_payload_counterexample :
    JValue.isNumber (.bool true) = false
      ∧ Response.save_related boolQ none [] boolR
          = .ok { boolR with answer := some "True", answer_number := some 1 } :=
  ⟨rfl, rfl⟩

/-- A payload that is neither a JSON number nor a boolean fails the
isinstance test of the numeric branch. -/
lemma isNumericInstance_eq_false {v : JValue} (hn : v.isNumber = false)
    (hb : v.isBool = false) : v.isNumericInstance = false := by
  cases v <;> simp_all [JValue.isNumber, JValue.isBool, JValue.isNumericInstance]

/-- C2 amended: on a currency, integer or number question, a decoded
payload that is neither a number nor a boolean leaves answer and
answer_number null (answer_number being null initially on a fresh row)
and raises no exception; boolean payloads are excluded because the
isinstance test of the source accepts them. -/
theorem C2_nonnumeric_payload_leaves_nulls (q : Question) (rp : Option Respondant)
    (others : List (Question × Response)) (r : Response) (v : JValue)
    (htype : q.type ∈ numericTypes) (hraw : r.answer_raw = some v)
    (hnum : v.isNumber = false) (hbool : v.isBool = false)
    (hinit : r.answer_number = none)
    (hattr : respondantHasAttr (underscoreSlug q.slug) = false) :
    ∃ r2, Response.save_related q rp others r = .ok r2
      ∧ r2.answer = none ∧ r2.answer_number = none := by
  have hni := isNumericInstance_eq_false hnum hbool
  have hb : normalizeBranch q r v = .ok ⟨.null, r.answer_number, r.answer_date, r⟩ := by
    have ht : q.type = "currency" ∨ q.type = "integer" ∨ q.type = "number" := by
      simpa [numericTypes] using htype
    unfold normalizeBranch
    rcases ht with h | h | h <;> rw [h] <;> simp [hni, numericTypes]
  refine ⟨finalSave ⟨.null, r.answer_number, r.answer_date, r⟩, ?_, ?_, ?_⟩
  · unfold Response.save_related
    rw [hraw]
    cases rp with
    | none =>
        simp [hb]
        try rfl
    | some rpv =>
        simp [hb, hattr]
        try rfl
  · simp [finalSave, storeText]
  · simp [finalSave, hinit]

/-- C2 witness: a currency response whose payload decodes to the string
a lot ends with answer and answer_number both null and no exception. -/
theorem C2_witness :
    currQ.type ∈ numericTypes
      ∧ (JValue.str "a lot").isNumber = false
      ∧ ∃ r2, Response.save_related currQ none [] currR = .ok r2
          ∧ r2.answer = none ∧ r2.answer_number = none :=
  ⟨by decide, rfl,
   C2_nonnumeric_payload_leaves_nulls currQ none [] currR (.str "a lot")
     (by decide) rfl rfl rfl rfl (by decide)⟩

/-- A response with a falsy raw payload anywhere in the response set
makes the flat.update loop raise. -/
lemma flatFold_error_of_empty_raw (q : Question) (r : Response)
    (hraw : r.answer_raw = none) :
    ∀ (rs : List (Question × Response)) (acc : List (String × JValue)),
      (q, r) ∈ rs → ∃ e, flatFold acc rs = .error e := by
  intro rs
  induction rs with
  | nil => intro acc h; cases h
  | cons hd tl ih =>
      intro acc hmem
      obtain ⟨q0, r0⟩ := hd
      rcases List.mem_cons.mp hmem with heq | hmem2
      · have hr0 : r = r0 := congrArg Prod.snd heq
        refine ⟨.noneUpdate, ?_⟩
        have hflat : Response.generate_flat_dict q0 r0 = .ok none := by
          unfold Response.generate_flat_dict
          rw [← hr0, hraw]
        simp [flatFold, hflat]
      · cases hflat : Response.generate_flat_dict q0 r0 with
        | error e => exact ⟨e, by simp [flatFold, hflat]⟩
        | ok o =>
            cases o with
            | none => exact ⟨FlatErr.noneUpdate, by simp [flatFold, hflat]⟩
            | some u => simpa [flatFold, hflat] using ih (dictUpdate acc u) hmem2

/-- C10: flatten succeeds only when every owned response has a truthy
raw payload: a response with a NULL or empty answer_raw yields a
per-response flat dict of None, and merging it makes the whole
Respondant flat-dict build fail instead of skipping the response. -/
theorem C10_flatten_fails_on_empty_raw (rp : Respondant)
    (rs : List (Question × Response)) (q : Question) (r : Response)
    (hmem : (q, r) ∈ rs) (hraw : r.answer_raw = none) :
    Response.generate_flat_dict q r = .ok none
      ∧ ∃ e, Respondant.generate_flat_dict rp rs = .error e := by
  constructor
  · unfold Response.generate_flat_dict
    rw [hraw]
  · exact flatFold_error_of_empty_raw q r hraw rs (flatBase rp) hmem

/-- C10 witness: one text response with NULL answer_raw makes the whole
flatten of its respondant fail. -/
theorem C10_witness :
    (emptyRawQ, emptyRawR) ∈ [(emptyRawQ, emptyRawR)]
      ∧ Response.generate_flat_dict emptyRawQ emptyRawR = .ok none
      ∧ ∃ e, Respondant.generate_flat_dict flatRp [(emptyRawQ, emptyRawR)] = .error e := by
  have h := C10_flatten_fails_on_empty_raw flatRp [(emptyRawQ, emptyRawR)]
    emptyRawQ emptyRawR (List.Mem.head _) rfl
  exact ⟨List.Mem.head _, h.1, h.2⟩

/-- Bind on a successful Except computation. -/
lemma except_bind_ok {ε α β : Type} (a : α) (f : α → Except ε β) :
    (Except.ok a : Except ε α) >>= f = f a := rfl

/-- Bind on a failed Except computation. -/
lemma except_bind_err {ε α β : Type} (e : ε) (f : α → Except ε β) :
    (Except.error e : Except ε α) >>= f = Except.error e := rfl

/-- A well-formed select element yields its value in any loop position:
the leaked previous value is never consulted. -/
lemma selStep_of_selValue (e : JValue) (t : String) (h : selValue e = some t)
    (prev : Option String) : selStep prev e = .ok t := by
  unfold selValue at h
  unfold selStep
  cases hc : selCore e with
  | error err => rw [hc] at h; cases h
  | ok o =>
      cases o with
      | none => rw [hc] at h; cases h
      | some t0 =>
          rw [hc] at h
          simp only [Option.some.injEq] at h
          rw [h]

/-- filterMap keeps the length of a list on which the function is
everywhere defined. -/
lemma length_filterMap_of_isSome {α β : Type} (f : α → Option β) :
    ∀ l : List α, (∀ a ∈ l, (f a).isSome) → (l.filterMap f).length = l.length := by
  intro l
  induction l with
  | nil => intro _; rfl
  | cons a l ih =>
      intro h
      obtain ⟨b, hb⟩ := Option.isSome_iff_exists.mp (h a (List.Mem.head _))
      rw [List.filterMap_cons, hb, List.length_cons,
          ih (fun x hx => h x (List.Mem.tail _ hx))]
      rfl

/-- The multi-select loop over well-formed elements: it appends one
MultiAnswer row and one display text per element. -/
lemma multiFold_of_wf :
    ∀ (es : List JValue), (∀ e ∈ es, (selValue e).isSome) →
    ∀ (prev : Option String) (rows : List MultiAnswer) (texts : List String),
      multiFold prev rows texts es
        = .ok (rows ++ es.filterMap selRow, texts ++ es.filterMap selValue) := by
  intro es
  induction es with
  | nil => intro _ prev rows texts; simp [multiFold]
  | cons e es ih =>
      intro hwf prev rows texts
      obtain ⟨t, ht⟩ := Option.isSome_iff_exists.mp (hwf e (List.Mem.head _))
      have hrow : selRow e = some (mkMultiAnswer t e) := by
        rw [selRow, ht]
        rfl
      have h2 := ih (fun x hx => hwf x (List.Mem.tail _ hx)) (some t)
        (rows ++ [mkMultiAnswer t e]) (texts ++ [t])
      rw [multiFold, selStep_of_selValue e t ht prev]
      refine Eq.trans h2 ?_
      simp [List.filterMap_cons, hrow, ht]

/-- C1: a multi-select response whose raw payload decodes to a sequence
of N well-formed elements ends with exactly N MultiAnswer child rows
(one per element) and its answer set to the stripped name-or-text
values joined with comma-space. -/
theorem C1_multi_select_rows_and_answer (q : Question) (rp : Option Respondant)
    (others : List (Question × Response)) (r : Response) (es : List JValue)
    (htype : q.type = "multi-select")
    (hraw : r.answer_raw = some (.arr es))
    (hwf : ∀ e ∈ es, (selValue e).isSome)
    (hattr : respondantHasAttr (underscoreSlug q.slug) = false) :
    ∃ r2, Response.save_related q rp others r = .ok r2
      ∧ r2.multiAnswers.length = es.length
      ∧ r2.answer = some (String.intercalate ", " (es.filterMap selValue)) := by
  have hb : normalizeBranch q r (.arr es)
      = .ok ⟨.str (String.intercalate ", " (es.filterMap selValue)),
             r.answer_number, r.answer_date,
             { r with multiAnswers := es.filterMap selRow }⟩ := by
    unfold normalizeBranch
    rw [htype]
    simp [pyIter, numericTypes, except_bind_ok, multiFold_of_wf es hwf none [] []]
    try rfl
  have hlen : (es.filterMap selRow).length = es.length := by
    refine length_filterMap_of_isSome selRow es (fun e he => ?_)
    obtain ⟨t, ht⟩ := Option.isSome_iff_exists.mp (hwf e he)
    rw [selRow, ht]
    rfl
  refine ⟨finalSave ⟨.str (String.intercalate ", " (es.filterMap selValue)),
            r.answer_number, r.answer_date,
            { r with multiAnswers := es.filterMap selRow }⟩, ?_, ?_, ?_⟩
  · unfold Response.save_related
    rw [hraw]
    cases rp with
    | none =>
        simp [hb, except_bind_ok, hraw]
        try rfl
    | some rpv =>
        simp [hb, hattr, except_bind_ok, hraw]
        try rfl
  · simpa [finalSave] using hlen
  · simp [finalSave, storeText, pyStr]

/-- C1 witness: a two-element multi-select payload produces two
MultiAnswer rows and the answer Tuna, Crab. -/
theorem C1_witness :
    msQ.type = "multi-select"
      ∧ ∃ r2, Response.save_related msQ none [] msR = .ok r2
          ∧ r2.multiAnswers.length = 2
          ∧ r2.answer = some "Tuna, Crab" := by
  have h := C1_multi_select_rows_and_answer msQ none [] msR msPayloadElems
    rfl rfl (by decide) (by decide)
  exact ⟨rfl, h⟩

/-- C5: a grid response whose payload has one row, on a question with
one numeric column (cell present and convertible) and one multi-select
column holding k selected values, ends with exactly 1 + k GridAnswer
child rows. -/
theorem C5_grid_row_count (q : Question) (rp : Option Respondant)
    (others : List (Question × Response)) (r : Response)
    (cnum cmulti : GridCol) (a : JValue) (g : GridAnswer)
    (gs : List GridAnswer) (vs : List JValue)
    (htype : q.type = "grid")
    (hcols : q.grid_cols = [cnum, cmulti])
    (hnumtype : cnum.type ∈ numericTypes)
    (hmultitype : cmulti.type = "multi-select")
    (hraw : r.answer_raw = some (.arr [a]))
    (hcell : numericCellRow a cnum = some g)
    (hvals : jSubscript a (gridKey cmulti) = .ok (.arr vs))
    (hcells : multiCellRows a cmulti = some gs)
    (hattr : respondantHasAttr (underscoreSlug q.slug) = false) :
    ∃ r2, Response.save_related q rp others r = .ok r2
      ∧ r2.gridAnswers.length = 1 + vs.length := by
  have hglen : gs.length = vs.length := by
    unfold multiCellRows at hcells
    rw [hvals] at hcells
    cases h1 : jSubscript a "label" <;>
      cases h2 : jSubscript a "text" <;>
        simp [h1, h2, Except.toOption, iterCellTexts] at hcells
    rw [← hcells]
    simp
  have hscalar : cnum.type ∈ gridScalarColTypes := by
    have ht : cnum.type = "currency" ∨ cnum.type = "integer" ∨ cnum.type = "number" := by
      simpa [numericTypes] using hnumtype
    rcases ht with h | h | h <;> simp [gridScalarColTypes, h]
  have hstep1 : gridColStep a cnum false = .ok ([g], false) := by
    unfold gridColStep
    rw [if_pos hscalar, hcell]
  have hstep2 : gridColStep a cmulti false = .ok (gs, false) := by
    have hns : cmulti.type ∉ gridScalarColTypes := by
      rw [hmultitype]
      decide
    unfold gridColStep
    rw [if_neg hns, if_pos hmultitype, hcells]
  have hfold : gridRowsFold [cnum, cmulti] false [a] = .ok (g :: gs, false) := by
    simp [gridRowsFold, gridColsFold, hstep1, hstep2, except_bind_ok]
    try rfl
  have hb : normalizeBranch q r (.arr [a])
      = .ok ⟨.arr [a], r.answer_number, r.answer_date,
             { r with gridAnswers := g :: gs }⟩ := by
    unfold normalizeBranch
    rw [htype, hcols]
    simp [numericTypes, pyIter, except_bind_ok, hfold]
    try rfl
  refine ⟨finalSave ⟨.arr [a], r.answer_number, r.answer_date,
            { r with gridAnswers := g :: gs }⟩, ?_, ?_⟩
  · unfold Response.save_related
    rw [hraw]
    cases rp with
    | none =>
        simp [hb, except_bind_ok, hraw]
        try rfl
    | some rpv =>
        simp [hb, hattr, except_bind_ok, hraw]
        try rfl
  · simp [finalSave, List.length_cons, hglen, Nat.add_comm]

/-- C5 witness: the example one-row grid payload with a numeric weight
cell and two selected methods produces exactly three GridAnswer rows. -/
theorem C5_witness :
    gridQ.type = "grid" ∧ gridQ.grid_cols = [weightCol, methodsCol]
      ∧ weightCol.type ∈ numericTypes ∧ methodsCol.type = "multi-select"
      ∧ ∃ r2, Response.save_related gridQ none [] gridR = .ok r2
          ∧ r2.gridAnswers.length = 1 + 2 := by
  refine ⟨rfl, rfl, by decide, rfl, ?_⟩
  exact C5_grid_row_count gridQ none [] gridR weightCol methodsCol gridRowPayload
    wRow mRows [.str "net", .str "line"] rfl rfl (by decide) rfl rfl rfl rfl rfl (by decide)

end Survey
